import Mathlib

/-!
Verification of the network-facing client layer of the opentimestamps
JavaScript repository: the calendar client (`RemoteCalendar.submit`,
`RemoteCalendar.getTimestamp`), the explorer client (`Esplora.blockhash`,
`Esplora.block`), and the URL whitelist (`UrlWhitelist`,
`DEFAULT_CALENDAR_WHITELIST`).

The JavaScript promise chains are embedded as pure functions from an
abstract fetch outcome (the transport either delivers a response or
rejects with an error) to the settled result of the chain, together with
the final state of the per-call timeout timer (`true` = a callback is
still pending).  JavaScript error objects are embedded as an inductive
type carrying the class and the message; `instanceof` checks become
constructor matches and `err.name` dispatch becomes a computed name.
-/

/-- Embedding of the JavaScript error objects thrown by the two modules.
`urlError`, `commitmentNotFoundError` and `exceededSizeError` are the
`Error.extend`-created classes of the source; `error` is a plain
`new Error(...)`; `raw` stands for any other error object delivered by the
platform (transport failures such as DNS errors, aborts, decoder errors),
carrying its `name` and `message`. -/
inductive JSError : Type
  | urlError (msg : String)
  | commitmentNotFoundError (msg : String)
  | exceededSizeError (msg : String)
  | error (msg : String)
  | raw (errName msg : String)
deriving DecidableEq, Repr

/-- The `name` property of the embedded error, as JavaScript exposes it. -/
def JSError.name : JSError → String
  | .urlError _ => "URLError"
  | .commitmentNotFoundError _ => "CommitmentNotFoundError"
  | .exceededSizeError _ => "ExceededSizeError"
  | .error _ => "Error"
  | .raw n _ => n

/-- The `message` property of the embedded error. -/
def JSError.message : JSError → String
  | .urlError m => m
  | .commitmentNotFoundError m => m
  | .exceededSizeError m => m
  | .error m => m
  | .raw _ m => m

/-- JavaScript `err.toString()` for an Error object: `name + ": " + message`,
or just the name when the message is empty. -/
def JSError.toStringJS (e : JSError) : String :=
  if e.message = "" then e.name else e.name ++ ": " ++ e.message

/-- The `err.message || err.toString()` idiom used by the calendar catch
handlers: the message, falling back to `toString()` when the message is
falsy (the empty string). -/
def JSError.messageOrToString (e : JSError) : String :=
  if e.message = "" then e.toStringJS else e.message

/-- Outcome of a `fetch` call: either the transport delivers a response
(status, statusText, and a fully read body of type `β`), or the promise
rejects with an error carrying a `name` and a `message`.  A timeout abort
is the rejection with name `"AbortError"`. -/
inductive FetchOutcome (β : Type) : Type
  | response (status : Nat) (statusText : String) (body : β)
  | failure (errName msg : String)
deriving DecidableEq, Repr

/-- Embedding of `response.ok`: the HTTP status is in the success range 200–299. -/
def statusOk (status : Nat) : Bool :=
  decide (200 ≤ status ∧ status ≤ 299)

/-- Embedding of `clearTimeout`: after clearing, no timer callback is pending.  (When no
timer was armed the pending state was already `false`.) -/
def clearTimeoutModel (_pending : Bool) : Bool := false

/-- Catch handler of `RemoteCalendar.submit` (calendar module, lines
92–101): an abort is normalized to `URLError('Request timeout')`;
`ExceededSizeError` and `URLError` instances are re-thrown as-is; anything
else is wrapped into a `URLError` carrying `err.message || err.toString()`. -/
def submitCatch (err : JSError) : JSError :=
  if err.name = "AbortError" then
    JSError.urlError "Request timeout"
  else
    match err with
    | .exceededSizeError _ => err
    | .urlError _ => err
    | _ => JSError.urlError err.messageOrToString

/-- Catch handler of `RemoteCalendar.getTimestamp` (calendar module, lines
140–149): an abort is normalized to a plain `Error('Request timeout')`;
`CommitmentNotFoundError` and `ExceededSizeError` instances are re-thrown
as-is; anything else is wrapped into a plain `Error` carrying
`err.message || err.toString()`. -/
def getTimestampCatch (err : JSError) : JSError :=
  if err.name = "AbortError" then
    JSError.error "Request timeout"
  else
    match err with
    | .commitmentNotFoundError _ => err
    | .exceededSizeError _ => err
    | _ => JSError.error err.messageOrToString

/-- Catch handler shared by `Esplora.blockhash` and `Esplora.block`
(esplora module): an abort is replaced by a plain
`Error('Request timeout')`; every other error is re-thrown unchanged
(after logging, which the embedding ignores). -/
def esploraCatch (err : JSError) : JSError :=
  if err.name = "AbortError" then JSError.error "Request timeout" else err

/-- Embedding of the `RemoteCalendar.submit(digest)` promise chain.  `hasTimeout` is the
truthiness of `this.timeout` (the timer is only armed when it is set);
`deser` is the external `Timestamp.deserialize` decoder applied to the
body bytes (it may throw, which the embedding renders as `Except.error`).
Returns the settled result of the chain and whether a timer callback is
still pending afterwards.  Chain: first `.then` clears the timer and
throws `URLError` on a non-ok status; second `.then` throws
`ExceededSizeError` on a body longer than 10000 bytes and otherwise
decodes; every throw and every fetch rejection lands in `submitCatch`,
which runs after the catch clause clears the timer again. -/
def submitModel {τ : Type} (hasTimeout : Bool) (deser : List Nat → Except JSError τ)
    (outcome : FetchOutcome (List Nat)) : Except JSError τ × Bool :=
  let timer0 := hasTimeout
  match outcome with
  | .failure errName msg =>
      (Except.error (submitCatch (JSError.raw errName msg)), clearTimeoutModel timer0)
  | .response status statusText body =>
      let timer1 := clearTimeoutModel timer0
      if !statusOk status then
        (Except.error (submitCatch
          (JSError.urlError ("HTTP " ++ toString status ++ ": " ++ statusText))),
         clearTimeoutModel timer1)
      else if 10000 < body.length then
        (Except.error (submitCatch
          (JSError.exceededSizeError "Calendar response exceeded size limit")),
         clearTimeoutModel timer1)
      else
        match deser body with
        | Except.ok t => (Except.ok t, timer1)
        | Except.error e => (Except.error (submitCatch e), clearTimeoutModel timer1)

/-- Embedding of the `RemoteCalendar.getTimestamp(commitment)` promise chain, embedded like
`submitModel`.  The first `.then` clears the timer, throws
`CommitmentNotFoundError` on status 404, and a plain `Error` on any other
non-ok status; the second `.then` applies the size guard and decodes; all
throws and rejections land in `getTimestampCatch`. -/
def getTimestampModel {τ : Type} (hasTimeout : Bool) (deser : List Nat → Except JSError τ)
    (outcome : FetchOutcome (List Nat)) : Except JSError τ × Bool :=
  let timer0 := hasTimeout
  match outcome with
  | .failure errName msg =>
      (Except.error (getTimestampCatch (JSError.raw errName msg)), clearTimeoutModel timer0)
  | .response status statusText body =>
      let timer1 := clearTimeoutModel timer0
      if status = 404 then
        (Except.error (getTimestampCatch
          (JSError.commitmentNotFoundError "Commitment not found")),
         clearTimeoutModel timer1)
      else if !statusOk status then
        (Except.error (getTimestampCatch
          (JSError.error ("HTTP " ++ toString status ++ ": " ++ statusText))),
         clearTimeoutModel timer1)
      else if 10000 < body.length then
        (Except.error (getTimestampCatch
          (JSError.exceededSizeError "Calendar response exceeded size limit")),
         clearTimeoutModel timer1)
      else
        match deser body with
        | Except.ok t => (Except.ok t, timer1)
        | Except.error e => (Except.error (getTimestampCatch e), clearTimeoutModel timer1)

/-- Embedding of the `Esplora.blockhash(height)` promise chain.  The esplora module always
arms the timer (`this.timeout` defaults to 1000).  The first `.then`
clears the timer and throws a plain `Error` on a non-ok status and
resolves `response.text()`; the second throws `URLError('Empty body')`
when the body string is falsy (the empty string) and otherwise returns the
body unchanged; throws and rejections land in `esploraCatch`. -/
def blockhashModel (outcome : FetchOutcome String) : Except JSError String × Bool :=
  let timer0 := true
  match outcome with
  | .failure errName msg =>
      (Except.error (esploraCatch (JSError.raw errName msg)), clearTimeoutModel timer0)
  | .response status statusText body =>
      let timer1 := clearTimeoutModel timer0
      if !statusOk status then
        (Except.error (esploraCatch
          (JSError.error ("HTTP " ++ toString status ++ ": " ++ statusText))),
         clearTimeoutModel timer1)
      else if body = "" then
        (Except.error (esploraCatch (JSError.urlError "Empty body")), clearTimeoutModel timer1)
      else
        (Except.ok body, timer1)

/-- The JSON object `Esplora.block` reads from `response.json()`: the two
fields it inspects, each possibly absent. -/
structure BlockJson : Type where
  merkle_root : Option String
  timestamp : Option Int
deriving DecidableEq, Repr

/-- The record `{merkleroot, time}` returned by `Esplora.block`. -/
structure BlockInfo : Type where
  merkleroot : String
  time : Int
deriving DecidableEq, Repr

/-- JavaScript falsiness of the `merkle_root` field: absent or the empty
string. -/
def jsFalsyStr : Option String → Bool
  | none => true
  | some s => s == ""

/-- JavaScript falsiness of the `timestamp` field: absent or zero. -/
def jsFalsyNum : Option Int → Bool
  | none => true
  | some n => n == 0

/-- Embedding of the `Esplora.block(hash)` promise chain.  The body slot of the outcome is
the result of `response.json()`: a parse failure (`Except.error`), a
parsed `null` (`Except.ok none`), or a parsed object.  The second `.then`
throws `URLError('Empty body')` on a falsy body, throws `URLError(body)`
(whose message stringifies the object to `"[object Object]"`) when either
required field is falsy, and otherwise returns
`{merkleroot: body.merkle_root, time: body.timestamp}`; after the
falsiness guard the fields are present, so the `getD` defaults are dead. -/
def blockModel (outcome : FetchOutcome (Except JSError (Option BlockJson))) :
    Except JSError BlockInfo × Bool :=
  let timer0 := true
  match outcome with
  | .failure errName msg =>
      (Except.error (esploraCatch (JSError.raw errName msg)), clearTimeoutModel timer0)
  | .response status statusText parsed =>
      let timer1 := clearTimeoutModel timer0
      if !statusOk status then
        (Except.error (esploraCatch
          (JSError.error ("HTTP " ++ toString status ++ ": " ++ statusText))),
         clearTimeoutModel timer1)
      else
        match parsed with
        | Except.error e => (Except.error (esploraCatch e), clearTimeoutModel timer1)
        | Except.ok none =>
            (Except.error (esploraCatch (JSError.urlError "Empty body")),
             clearTimeoutModel timer1)
        | Except.ok (some b) =>
            if jsFalsyStr b.merkle_root || jsFalsyNum b.timestamp then
              (Except.error (esploraCatch (JSError.urlError "[object Object]")),
               clearTimeoutModel timer1)
            else
              (Except.ok ⟨b.merkle_root.getD "", b.timestamp.getD 0⟩, timer1)

/-- Matching loop for a `*` wildcard: `m` matches the rest of the pattern;
the star absorbs zero or more leading characters of the candidate, so the
rest of the pattern is tried against every suffix. -/
def starLoop (m : List Char → Bool) : List Char → Bool
  | [] => m []
  | d :: stail => m (d :: stail) || starLoop m stail

/-- Modelled from the spec: glob matching is performed by the external
`minimatch` dependency, whose code is not under `src/`.  Following the
spec's glob semantics: `*` matches any run of characters (including
subdomain dot-boundaries), `?` matches exactly one character, any other
pattern character matches only itself.  `p` is the pattern, `s` the
candidate, both as character lists. -/
def globMatch : (p s : List Char) → Bool
  | [], s => s.isEmpty
  | c :: ptail, s =>
    if c = '*' then
      starLoop (globMatch ptail) s
    else
      match s with
      | [] => false
      | d :: stail => (c == '?' || c == d) && globMatch ptail stail

/-- Modelled from the spec: `minimatch(url, pattern)` of the external
dependency — does the candidate string match the glob pattern. -/
def minimatch (target pattern : String) : Bool :=
  globMatch pattern.data target.data

/-- JavaScript `String.prototype.startsWith`, embedded character-wise. -/
def jsStartsWith (s pre : String) : Bool :=
  s.data.take pre.data.length == pre.data

/-- Embedding of `Set.prototype.add` on a set held as its insertion-ordered element
list: appends the element unless already present. -/
def setAdd (l : List String) (x : String) : List String :=
  if x ∈ l then l else l ++ [x]

/-- Embedding of `UrlWhitelist.add(url)` (calendar module, lines 162–172): a url that
already carries an `http://` or `https://` prefix is inserted as one
pattern; otherwise it is inserted twice, once with each scheme prefix.
(The `typeof` guard cannot fire in the typed embedding.) -/
def UrlWhitelist.add (w : List String) (url : String) : List String :=
  if jsStartsWith url "http://" || jsStartsWith url "https://" then
    setAdd w url
  else
    setAdd (setAdd w ("http://" ++ url)) ("https://" ++ url)

/-- Embedding of `UrlWhitelist.contains(url)` (calendar module, lines 174–176): true
iff the list of stored patterns filtered by `minimatch(url, pattern)` is
nonempty. -/
def UrlWhitelist.contains (w : List String) (url : String) : Bool :=
  decide (0 < (w.filter (fun u => minimatch url u)).length)

/-- The `UrlWhitelist` constructor: fold `add` over the given urls
starting from the empty set. -/
def UrlWhitelist.ofUrls (urls : List String) : List String :=
  urls.foldl UrlWhitelist.add []

/-- Embedding of `DEFAULT_CALENDAR_WHITELIST` (calendar module, lines 183–187). -/
def DEFAULT_CALENDAR_WHITELIST : List String :=
  UrlWhitelist.ofUrls
    ["https://*.calendar.opentimestamps.org",
     "https://*.calendar.eternitywall.com",
     "https://*.calendar.catallaxy.com"]







/-- If the rest of the pattern matches the whole suffix, the star loop
succeeds (the star absorbs zero characters). -/
theorem starLoop_of_self (m : List Char → Bool) (s : List Char) (h : m s = true) :
    starLoop m s = true := by
  cases s with
  | nil => simpa [starLoop] using h
  | cons d stail => simp [starLoop, h]

/-- Every pattern glob-matches itself. -/
theorem globMatch_self (p : List Char) : globMatch p p = true := by
  induction p with
  | nil => rfl
  | cons c ptail ih =>
    by_cases hc : c = '*'
    · subst hc
      have h2 : starLoop (globMatch ptail) ptail = true := starLoop_of_self _ _ ih
      simp [globMatch, starLoop, h2]
    · simp [globMatch, hc, ih]

/-- Every string minimatches itself taken as a pattern. -/
theorem minimatch_self (s : String) : minimatch s s = true :=
  globMatch_self s.data

/-- The element just added is a member of the set. -/
theorem mem_setAdd_self (l : List String) (x : String) : x ∈ setAdd l x := by
  by_cases h : x ∈ l <;> simp [setAdd, h]

/-- Adding preserves existing members. -/
theorem mem_setAdd_of_mem {l : List String} {y : String} (x : String) (h : y ∈ l) :
    y ∈ setAdd l x := by
  by_cases hx : x ∈ l <;> simp [setAdd, hx, h]

/-- Lemma: `contains` is the set-existence query: true iff some stored pattern
matches the candidate. -/
theorem UrlWhitelist.contains_iff (w : List String) (url : String) :
    UrlWhitelist.contains w url = true ↔ ∃ p, p ∈ w ∧ minimatch url p = true := by
  constructor
  · intro h
    have h0 : 0 < (w.filter (fun u => minimatch url u)).length := by
      simpa [UrlWhitelist.contains] using h
    obtain ⟨p, hp⟩ := List.length_pos_iff_exists_mem.mp h0
    obtain ⟨hw, hm⟩ := List.mem_filter.mp hp
    exact ⟨p, hw, by simpa using hm⟩
  · rintro ⟨p, hw, hm⟩
    have hpf : p ∈ w.filter (fun u => minimatch url u) :=
      List.mem_filter.mpr ⟨hw, by simpa using hm⟩
    simpa [UrlWhitelist.contains] using List.length_pos_iff_exists_mem.mpr ⟨p, hpf⟩

/-- On every fetch outcome, `submit` ends with no pending timer callback. -/
theorem submitModel_timer (τ : Type) (ht : Bool) (deser : List Nat → Except JSError τ)
    (o : FetchOutcome (List Nat)) : (submitModel ht deser o).2 = false := by
  cases o with
  | failure n m => rfl
  | response st stx b =>
      simp only [submitModel, clearTimeoutModel]
      split
      · rfl
      · split
        · rfl
        · split <;> rfl

/-- On every fetch outcome, `getTimestamp` ends with no pending timer
callback. -/
theorem getTimestampModel_timer (τ : Type) (ht : Bool) (deser : List Nat → Except JSError τ)
    (o : FetchOutcome (List Nat)) : (getTimestampModel ht deser o).2 = false := by
  cases o with
  | failure n m => rfl
  | response st stx b =>
      simp only [getTimestampModel, clearTimeoutModel]
      split
      · rfl
      · split
        · rfl
        · split
          · rfl
          · split <;> rfl

/-- On every fetch outcome, `blockhash` ends with no pending timer
callback. -/
theorem blockhashModel_timer (o : FetchOutcome String) : (blockhashModel o).2 = false := by
  cases o with
  | failure n m => rfl
  | response st stx b =>
      simp only [blockhashModel, clearTimeoutModel]
      split
      · rfl
      · split <;> rfl

/-- On every fetch outcome, `block` ends with no pending timer callback. -/
theorem blockModel_timer (o : FetchOutcome (Except JSError (Option BlockJson))) :
    (blockModel o).2 = false := by
  cases o with
  | failure n m => rfl
  | response st stx b =>
      simp only [blockModel, clearTimeoutModel]
      split
      · rfl
      · split
        · rfl
        · rfl
        · split <;> rfl

/-- Claim C1, counterexample: an `ExplorerClient.blockhash` exchange whose
response is successful with a 10001-byte body does not fail with
`ExceededSizeError`; it returns the body as a success, because the esplora
module performs no size check at all.  This refutes the claim that every
exchange of the layer fails with `ExceededSizeError` on bodies longer than
10,000 bytes. -/
theorem claim_C1_counterexample :
    10000 < (String.mk (List.replicate 10001 'a')).length
  ∧ (blockhashModel (FetchOutcome.response 200 "OK"
        (String.mk (List.replicate 10001 'a')))).1
      = Except.ok (String.mk (List.replicate 10001 'a')) := by
  constructor
  · show 10000 < (List.replicate 10001 'a').length
    rw [List.length_replicate]
    omega
  · rfl

/-- Claim C1, amended: the 10,000-byte size guard exists only in the
calendar exchanges (`submit`, `getTimestamp`) and fires only after the
HTTP status check passes: on a successful status, a body longer than
10,000 bytes fails with `ExceededSizeError` regardless of whether the body
would deserialize (the result does not depend on the decoder). -/
theorem claim_C1_amended (τ : Type) (ht : Bool) (deser : List Nat → Except JSError τ)
    (status : Nat) (stext : String) (body : List Nat)
    (hok : statusOk status = true) (hlen : 10000 < body.length) :
    (submitModel ht deser (FetchOutcome.response status stext body)).1
      = Except.error (JSError.exceededSizeError "Calendar response exceeded size limit")
  ∧ (getTimestampModel ht deser (FetchOutcome.response status stext body)).1
      = Except.error (JSError.exceededSizeError "Calendar response exceeded size limit") := by
  have h404 : ¬(status = 404) := by
    intro h
    subst h
    exact absurd hok (by decide)
  constructor
  · simp [submitModel, hok, hlen, submitCatch, JSError.name]
  · simp [getTimestampModel, hok, hlen, h404, getTimestampCatch, JSError.name]

/-- Claim C1, witness: the amended size-guard theorem applied to a
successful status 200 response carrying a 10001-byte body. -/
theorem claim_C1_witness :
    (submitModel true (fun _ => Except.ok (0 : Nat))
        (FetchOutcome.response 200 "OK" (List.replicate 10001 0))).1
      = Except.error (JSError.exceededSizeError "Calendar response exceeded size limit") :=
  (claim_C1_amended Nat true (fun _ => Except.ok 0) 200 "OK" (List.replicate 10001 0)
    (by decide) (by rw [List.length_replicate]; omega)).1

/-- Claim C2: `getTimestamp` against a server answering HTTP 404 fails
with `CommitmentNotFoundError` — not with the generic status error used
for other non-success statuses — and the catch handler re-throws exactly
that error, whatever the status text, body, timeout configuration and
decoder are. -/
theorem claim_C2 (τ : Type) (ht : Bool) (deser : List Nat → Except JSError τ)
    (stext : String) (body : List Nat) :
    (getTimestampModel ht deser (FetchOutcome.response 404 stext body)).1
      = Except.error (JSError.commitmentNotFoundError "Commitment not found") := rfl

/-- Claim C3: for each of the four exchanges, a fetch that rejects with
the transport's native abort error (name `"AbortError"`, any message) is
normalized to the timeout error of the respective handler — the calendar
module has no `TimeoutError` class, so the normalized error is
`URLError('Request timeout')` in `submit` and a plain
`Error('Request timeout')` in the other three — the native abort error
never surfaces, and on every outcome (timeout, other failure, or
completion) the call ends with no pending timer callback. -/
theorem claim_C3 :
    (∀ (τ : Type) (ht : Bool) (deser : List Nat → Except JSError τ) (msg : String),
        (submitModel ht deser (FetchOutcome.failure "AbortError" msg)).1
          = Except.error (JSError.urlError "Request timeout")
      ∧ (getTimestampModel ht deser (FetchOutcome.failure "AbortError" msg)).1
          = Except.error (JSError.error "Request timeout")
      ∧ ∀ o : FetchOutcome (List Nat),
          (submitModel ht deser o).2 = false ∧ (getTimestampModel ht deser o).2 = false)
  ∧ (∀ msg : String,
        (blockhashModel (FetchOutcome.failure "AbortError" msg)).1
          = Except.error (JSError.error "Request timeout")
      ∧ (blockModel (FetchOutcome.failure "AbortError" msg)).1
          = Except.error (JSError.error "Request timeout"))
  ∧ (∀ o : FetchOutcome String, (blockhashModel o).2 = false)
  ∧ (∀ o : FetchOutcome (Except JSError (Option BlockJson)), (blockModel o).2 = false) :=
  ⟨fun τ ht deser _msg =>
    ⟨rfl, rfl, fun o => ⟨submitModel_timer τ ht deser o, getTimestampModel_timer τ ht deser o⟩⟩,
   fun _msg => ⟨rfl, rfl⟩,
   fun o => blockhashModel_timer o,
   fun o => blockModel_timer o⟩

/-- Claim C4: adding a whitelist entry without a scheme prefix inserts two
patterns, one per scheme, after which both the `http://` and the
`https://` version of the url are contained; adding an entry that already
carries a scheme inserts exactly that one pattern, after which the
other-scheme version is not contained. -/
theorem claim_C4 :
    (∀ (w : List String) (url : String),
        jsStartsWith url "http://" = false → jsStartsWith url "https://" = false →
          UrlWhitelist.contains (UrlWhitelist.add w url) ("http://" ++ url) = true
        ∧ UrlWhitelist.contains (UrlWhitelist.add w url) ("https://" ++ url) = true)
  ∧ UrlWhitelist.add [] "https://example.com" = ["https://example.com"]
  ∧ UrlWhitelist.contains (UrlWhitelist.add [] "https://example.com")
      "http://example.com" = false := by
  refine ⟨fun w url h1 h2 => ?_, by decide, by decide⟩
  have hadd : UrlWhitelist.add w url
      = setAdd (setAdd w ("http://" ++ url)) ("https://" ++ url) := by
    simp [UrlWhitelist.add, h1, h2]
  constructor
  · rw [hadd]
    exact (UrlWhitelist.contains_iff _ _).mpr
      ⟨"http://" ++ url,
       mem_setAdd_of_mem _ (mem_setAdd_self w _),
       minimatch_self _⟩
  · rw [hadd]
    exact (UrlWhitelist.contains_iff _ _).mpr
      ⟨"https://" ++ url, mem_setAdd_self _ _, minimatch_self _⟩

/-- Claim C4, witness: the two-scheme insertion theorem applied to
`add("example.com")` on an empty whitelist. -/
theorem claim_C4_witness :
    UrlWhitelist.contains (UrlWhitelist.add [] "example.com") "http://example.com" = true
  ∧ UrlWhitelist.contains (UrlWhitelist.add [] "example.com") "https://example.com" = true :=
  claim_C4.1 [] "example.com" (by decide) (by decide)

/-- Claim C5: `contains` is true iff at least one stored glob pattern
matches the candidate url, where `*` spans any run of characters including
subdomain dot-boundaries; against the default calendar whitelist, a
wildcarded subdomain of `calendar.opentimestamps.org` is contained and
`https://evil.com` is not. -/
theorem claim_C5 :
    (∀ (w : List String) (url : String),
        UrlWhitelist.contains w url = true ↔ ∃ p, p ∈ w ∧ minimatch url p = true)
  ∧ UrlWhitelist.contains DEFAULT_CALENDAR_WHITELIST
      "https://sub.calendar.opentimestamps.org" = true
  ∧ UrlWhitelist.contains DEFAULT_CALENDAR_WHITELIST
      "https://evil.com" = false :=
  ⟨UrlWhitelist.contains_iff, by decide, by decide⟩

/-- Claim C6: `block` on a successful response whose JSON body carries
`merkle_root: "abc"` and `timestamp: 123` returns the pair
`{merkleroot := "abc", time := 123}`; when the timestamp field is absent
it fails with the malformed-response error (`URLError` whose message is
the stringified body) instead of returning a defaulted value. -/
theorem claim_C6 :
    (blockModel (FetchOutcome.response 200 "OK"
        (Except.ok (some ⟨some "abc", some 123⟩)))).1
      = Except.ok ⟨"abc", 123⟩
  ∧ (blockModel (FetchOutcome.response 200 "OK"
        (Except.ok (some ⟨some "abc", none⟩)))).1
      = Except.error (JSError.urlError "[object Object]") :=
  ⟨rfl, rfl⟩

/-- Claim C7, counterexample: a successful `blockhash` response whose body
is the single-space string — whitespace-only, hence of zero length after
trimming — is returned unchanged as a success, not rejected with the
empty-body error: the code tests `!body`, which is true only for the empty
string, and performs no trimming. -/
theorem claim_C7_counterexample :
    (" " : String).data.all Char.isWhitespace = true
  ∧ (" " : String) ≠ ""
  ∧ (blockhashModel (FetchOutcome.response 200 "OK" " ")).1 = Except.ok " " :=
  ⟨by decide, by decide, rfl⟩

/-- Claim C7, amended: on a successful status, `blockhash` fails with the
empty-body error (`URLError('Empty body')`) exactly when the body is the
empty string, and returns any other body — including whitespace-only
bodies — unmodified. -/
theorem claim_C7_amended (status : Nat) (stext body : String)
    (hok : statusOk status = true) :
    (blockhashModel (FetchOutcome.response status stext body)).1
      = if body = "" then Except.error (JSError.urlError "Empty body")
        else Except.ok body := by
  by_cases hb : body = "" <;>
    simp [blockhashModel, hok, hb, esploraCatch, JSError.name]

/-- Claim C7, witness: the amended theorem applied to a successful
response with body `"00000000000000000000"`, which is returned as exactly
that string. -/
theorem claim_C7_witness :
    (blockhashModel (FetchOutcome.response 200 "OK" "00000000000000000000")).1
      = Except.ok "00000000000000000000" := by
  have h := claim_C7_amended 200 "OK" "00000000000000000000" (by decide)
  simpa using h

/-- Claim C8: each outer catch handler re-throws an already-classified
domain error as-is.  In `submit`, `ExceededSizeError` and `URLError` (the
class of its normalized timeout and status errors) pass through unchanged;
in `getTimestamp`, `CommitmentNotFoundError` and `ExceededSizeError` pass
through unchanged, and its classified timeout error
(`Error('Request timeout')`) is re-emitted with the same class and
message; the esplora handler re-throws every non-abort error unchanged. -/
theorem claim_C8 :
    (∀ msg : String,
        submitCatch (JSError.exceededSizeError msg) = JSError.exceededSizeError msg
      ∧ submitCatch (JSError.urlError msg) = JSError.urlError msg
      ∧ getTimestampCatch (JSError.commitmentNotFoundError msg)
          = JSError.commitmentNotFoundError msg
      ∧ getTimestampCatch (JSError.exceededSizeError msg) = JSError.exceededSizeError msg)
  ∧ getTimestampCatch (JSError.error "Request timeout") = JSError.error "Request timeout"
  ∧ (∀ e : JSError, e.name = "AbortError" ∨ esploraCatch e = e) := by
  refine ⟨fun msg => ⟨rfl, rfl, rfl, rfl⟩, rfl, fun e => ?_⟩
  by_cases h : e.name = "AbortError"
  · exact Or.inl h
  · exact Or.inr (by simp [esploraCatch, h])

/-- Claim C9, counterexample: a `blockhash` exchange whose fetch rejects
with a raw platform error (`TypeError: fetch failed`, the Node shape of a
DNS or connection failure) surfaces exactly that raw error to the caller:
the esplora catch handler re-throws non-abort errors without wrapping.
This refutes the claim that the raw platform error object never reaches
the caller. -/
theorem claim_C9_counterexample :
    (blockhashModel (FetchOutcome.failure "TypeError" "fetch failed")).1
      = Except.error (JSError.raw "TypeError" "fetch failed") := rfl

/-- Claim C9, amended: for a transport failure that is neither the abort
error nor a classified domain error, the calendar exchanges wrap it —
`submit` into a `URLError` carrying the underlying message,
`getTimestamp` into a plain `Error` carrying the underlying message —
while the explorer exchanges re-throw the raw platform error unchanged. -/
theorem claim_C9_amended (nm msg : String) (τ : Type) (ht : Bool)
    (deser : List Nat → Except JSError τ)
    (hn : ¬(nm = "AbortError")) (hm : ¬(msg = "")) :
    (submitModel ht deser (FetchOutcome.failure nm msg)).1
      = Except.error (JSError.urlError msg)
  ∧ (getTimestampModel ht deser (FetchOutcome.failure nm msg)).1
      = Except.error (JSError.error msg)
  ∧ (blockhashModel (FetchOutcome.failure nm msg)).1
      = Except.error (JSError.raw nm msg)
  ∧ (blockModel (FetchOutcome.failure nm msg)).1
      = Except.error (JSError.raw nm msg) := by
  refine ⟨?_, ?_, ?_, ?_⟩ <;>
    simp [submitModel, getTimestampModel, blockhashModel, blockModel,
      submitCatch, getTimestampCatch, esploraCatch, JSError.name,
      JSError.messageOrToString, JSError.message, hn, hm]

/-- Claim C9, witness: the amended wrapping theorem applied to a
connection-reset failure of `submit`. -/
theorem claim_C9_witness :
    (submitModel true (fun _ => Except.ok (0 : Nat))
        (FetchOutcome.failure "TypeError" "connection reset")).1
      = Except.error (JSError.urlError "connection reset") :=
  (claim_C9_amended "TypeError" "connection reset" Nat true (fun _ => Except.ok 0)
    (by decide) (by decide)).1

/-- Claim C10: `block` treats a required field with a falsy value as
missing: on a successful response whose parsed body carries both fields
but with `merkle_root` the empty string or `timestamp` zero, the call
fails with the malformed-response error instead of returning the pair. -/
theorem claim_C10 (mr : String) (ts : Int) (stext : String)
    (h : mr = "" ∨ ts = 0) :
    (blockModel (FetchOutcome.response 200 stext
        (Except.ok (some ⟨some mr, some ts⟩)))).1
      = Except.error (JSError.urlError "[object Object]") := by
  rcases h with h | h <;> subst h <;>
    simp [blockModel, statusOk, jsFalsyStr, jsFalsyNum, esploraCatch, JSError.name]

/-- Claim C10, witness: the falsy-field theorem applied to the body
`{"merkle_root":"abc","timestamp":0}`. -/
theorem claim_C10_witness :
    (blockModel (FetchOutcome.response 200 "OK"
        (Except.ok (some ⟨some "abc", some 0⟩)))).1
      = Except.error (JSError.urlError "[object Object]") :=
  claim_C10 "abc" 0 "OK" (Or.inr rfl)


